import Mathlib

/-!
Shallow embedding of `src/sora_signaling.cpp` (sora-unity-sdk signaling
client).  Pure data is modelled directly; the asynchronous collaborators
(Websocket transport, RTCConnection, RTCManager) are modelled as follows:

* every `ws_->WriteText`, `ws_->Read` (`DoRead`), notify-callback
  invocation and connection construction is recorded as an `Effect` in the
  order the C++ code issues it;
* `boost::json::parse` is represented by the `Option Json` component of a
  completed read (`none` = the parse threw);
* a thrown C++ exception escaping the handler is the `Outcome.thrown`
  result, and a method call through a null `connection_` shared pointer
  (undefined behaviour in C++) is `Outcome.nullDeref`;
* the asynchronous continuations (`SetOffer` → `CreateAnswer` → write,
  `GetStats` → write) are inlined eagerly: the environment `Env` supplies
  the answer SDP produced by `CreateAnswer` and the statistics JSON
  produced by `report->ToJson()`.
-/

/-- `webrtc::PeerConnectionInterface::IceConnectionState` (the enum values
used by the source). -/
inductive IceConnectionState where
  | new
  | checking
  | connected
  | completed
  | failed
  | disconnected
  | closed
  | max
deriving DecidableEq, Repr

/-- Minimal JSON value model mirroring `boost::json::value` as used by the
source file. -/
inductive Json where
  | null
  | bool (b : Bool)
  | num (n : Nat)
  | str (s : String)
  | arr (elems : List Json)
  | obj (fields : List (String × Json))
deriving Repr

/-- `value.is_null()`. -/
def Json.isNull : Json → Bool
  | .null => true
  | _ => false

/-- `value.as_string()`: `some` on a string, otherwise the C++ call throws
(`none`). -/
def Json.asString : Json → Option String
  | .str s => some s
  | _ => none

/-- `value.as_bool()`: `some` on a bool, otherwise the C++ call throws
(`none`). -/
def Json.asBool : Json → Option Bool
  | .bool b => some b
  | _ => none

/-- `value.as_array()`: `some` on an array, otherwise the C++ call throws
(`none`). -/
def Json.asArray : Json → Option (List Json)
  | .arr xs => some xs
  | _ => none

/-- `value.at(key)` / `object.find(key)`: field lookup on an object;
`none` when the value is not an object or the key is absent (at throws,
find returns `end`). -/
def Json.getField : Json → String → Option Json
  | .obj fs, k => (fs.find? (fun p => p.1 == k)).map Prod.snd
  | _, _ => none

/-- Whether an object value carries the given key. -/
def Json.hasField : Json → String → Bool
  | .obj fs, k => fs.any (fun p => p.1 == k)
  | _, _ => false

/-- `SoraSignalingConfig::Role`. -/
inductive Role where
  | sendonly
  | recvonly
  | sendrecv
deriving DecidableEq, Repr

/-- `SoraSignalingConfig`: the fields `sora_signaling.cpp` reads. -/
structure SoraSignalingConfig where
  signaling_url : String
  role : Role
  multistream : Bool
  channel_id : String
  metadata : Json
  video_codec : String
  video_bitrate : Nat
  audio_codec : String
  audio_bitrate : Nat
  insecure : Bool
  unity_version : String

/-- Which kind of `Websocket` was constructed by `Connect` (plain `ws` or
`wss` with the insecure flag). -/
inductive WsKind where
  | plain
  | ssl (insecure : Bool)
deriving DecidableEq, Repr

/-- The mutable state of a `SoraSignaling` object.  `connection_` is a
shared pointer to an `RTCConnection`; connections are identified by the
fresh id `nextConnId` hands out, so that replacement of the connection is
observable.  `has_notify` models whether the `on_notify_` callback is
non-empty. -/
structure ClientState where
  rtc_state : IceConnectionState
  connected : Bool
  connection : Option Nat
  nextConnId : Nat
  ws : Option WsKind
  has_notify : Bool
  config : SoraSignalingConfig

/-- One entry of `webrtc::PeerConnectionInterface::IceServers` as built by
`CreatePeerFromConfig`. -/
structure IceServer where
  uri : String
  username : String
  password : String
deriving DecidableEq, Repr

/-- An outbound frame passed to `ws_->WriteText`: either the
serialization of a `boost::json` value, or a raw string built by
concatenation (the stats pong). -/
inductive OutMsg where
  | json (j : Json)
  | raw (s : String)
deriving Repr

/-- Observable actions of the client, in program order. -/
inductive Effect where
  | write (m : OutMsg)
  | read
  | logError
  | notify (text : String)
  | createConn (servers : List IceServer)
  | wsConnect
deriving Repr

/-- Result of running a handler: normal return, a C++ exception escaping
the handler (`boost::json` accessor on a missing/ill-typed field), or
undefined behaviour from calling through a null `connection_`.  Each
carries the state at that point and the effects issued before it. -/
inductive Outcome where
  | normal (s : ClientState) (effs : List Effect)
  | thrown (s : ClientState) (effs : List Effect)
  | nullDeref (s : ClientState) (effs : List Effect)

/-- State component of an outcome. -/
def Outcome.endState : Outcome → ClientState
  | .normal s _ => s
  | .thrown s _ => s
  | .nullDeref s _ => s

/-- Effect-trace component of an outcome. -/
def Outcome.effects : Outcome → List Effect
  | .normal _ effs => effs
  | .thrown _ effs => effs
  | .nullDeref _ effs => effs

/-- Whether the handler returned normally. -/
def Outcome.isNormal : Outcome → Bool
  | .normal _ _ => true
  | _ => false

/-- Completion of one `ws_->Read`: `operation_aborted`, another error, or
a delivered text frame together with the result of
`boost::json::parse(text)` (`none` when the parse throws). -/
inductive ReadResult where
  | aborted
  | error
  | ok (text : String) (parsed : Option Json)

/-- Values the external collaborators feed into the inlined asynchronous
continuations: the SDP produced by `CreateAnswer` and the JSON text
produced by `report->ToJson()` in the stats callback. -/
structure Env where
  answer_sdp : String
  stats : String

/-- Effect predicate: is this effect a `DoRead`? -/
def Effect.isRead : Effect → Bool
  | .read => true
  | _ => false

/-- Effect predicate: is this effect a `ws_->WriteText`? -/
def Effect.isWrite : Effect → Bool
  | .write _ => true
  | _ => false

/-- Effect predicate: is this effect a connection construction? -/
def Effect.isCreateConn : Effect → Bool
  | .createConn _ => true
  | _ => false

/-- Number of reads issued in a trace. -/
def countReads (effs : List Effect) : Nat :=
  (effs.filter Effect.isRead).length

/-- Number of writes issued in a trace. -/
def countWrites (effs : List Effect) : Nat :=
  (effs.filter Effect.isWrite).length

/-- `SoraSignaling::getRTCConnectionState` (lines 39-42). -/
def getRTCConnectionState (s : ClientState) : IceConnectionState :=
  s.rtc_state

/-- `SoraSignaling::getRTCConnection` (lines 44-51): return `connection_`
when `rtc_state_` is `kIceConnectionConnected`, else `nullptr`. -/
def getRTCConnection (s : ClientState) : Option Nat :=
  if s.rtc_state = IceConnectionState.connected then
    s.connection
  else
    none

/-- `SoraSignaling::Release` (lines 79-84): move `connection_` out
(leaving it null) and drop the local copy. -/
def Release (s : ClientState) : ClientState :=
  { s with connection := none }

/-- Scheme/host/port triple produced by the external `URLParts::Parse`. -/
structure URLParts where
  scheme : String
  host : String
  port : String

/-- `SoraSignaling::Connect` (lines 86-118).  `parseURL` stands for the
external `URLParts::Parse` (`none` = parse failure).  Returns the bool
result, the state after the call, and the effects issued. -/
def Connect (parseURL : String → Option URLParts) (s : ClientState) :
    Bool × ClientState × List Effect :=
  if s.connected then
    (false, s, [])
  else
    match parseURL s.config.signaling_url with
    | none => (false, s, [Effect.logError])
    | some parts =>
      if parts.scheme = "ws" then
        (true, { s with ws := some WsKind.plain }, [Effect.wsConnect])
      else if parts.scheme = "wss" then
        (true, { s with ws := some (WsKind.ssl s.config.insecure) },
          [Effect.wsConnect])
      else
        (false, s, [])

/-- Modelled from the spec: the `SORA_CLIENT` macro built from
`sora_version.h`, which is not under `src/`; an opaque client
identification string. -/
def SORA_CLIENT : String := "Sora Unity SDK 1.0 (abcdef)"

/-- Modelled from the spec: the `LIBWEBRTC` macro built from
`sora_version.h`; an opaque library identification string. -/
def LIBWEBRTC : String := "Shiguredo-build 1.0 (1.0 abcdef)"

/-- Modelled from the spec: the `SORA_UNITY_SDK_PLATFORM` macro from
`sora_version.h`; an opaque platform name. -/
def SORA_UNITY_SDK_PLATFORM : String := "platform"

/-- The nested ternary computing the role string (lines 142-146). -/
def roleString : Role → String
  | Role.sendonly => "sendonly"
  | Role.recvonly => "recvonly"
  | Role.sendrecv => "sendrecv"

/-- `SoraSignaling::DoSendConnect` (lines 141-176): the JSON object
written as the initial connect message. -/
def DoSendConnect (cfg : SoraSignalingConfig) : Json :=
  let base : List (String × Json) :=
    [("type", Json.str "connect"),
     ("role", Json.str (roleString cfg.role)),
     ("multistream", Json.bool cfg.multistream),
     ("channel_id", Json.str cfg.channel_id),
     ("sora_client", Json.str SORA_CLIENT),
     ("libwebrtc", Json.str LIBWEBRTC),
     ("environment",
      Json.str ("Unity " ++ cfg.unity_version ++ " for " ++
        SORA_UNITY_SDK_PLATFORM))]
  let withMeta : List (String × Json) :=
    if cfg.metadata.isNull then base else base ++ [("metadata", cfg.metadata)]
  let video : Json :=
    Json.obj ([("codec_type", Json.str cfg.video_codec)] ++
      (if cfg.video_bitrate = 0 then []
       else [("bit_rate", Json.num cfg.video_bitrate)]))
  let audio : Json :=
    Json.obj ([("codec_type", Json.str cfg.audio_codec)] ++
      (if cfg.audio_bitrate = 0 then []
       else [("bit_rate", Json.num cfg.audio_bitrate)]))
  Json.obj (withMeta ++ [("video", video), ("audio", audio)])

/-- `SoraSignaling::DoSendPong()` (lines 177-180): the bare pong frame. -/
def DoSendPong : OutMsg :=
  OutMsg.json (Json.obj [("type", Json.str "pong")])

/-- `SoraSignaling::DoSendPong(report)` (lines 181-186): the stats pong
frame built by raw string concatenation around `report->ToJson()`. -/
def DoSendPongStats (stats : String) : OutMsg :=
  OutMsg.raw ("\x7b\"type\":\"pong\",\"stats\":" ++ stats ++ "\x7d")

/-- The ICE-server parsing loop inside `CreatePeerFromConfig`
(lines 192-204): every `at`/`as_string`/`as_array` throws (`none`) when
the field is missing or ill-typed; the two nested loops flatten each
server's url list into individual `IceServer` entries. -/
def parseIceServers (jconfig : Json) : Option (List IceServer) := do
  let jservers ← jconfig.getField "iceServers"
  let servers ← jservers.asArray
  let nested ← servers.mapM (fun jserver => do
    let username ← (jserver.getField "username").bind Json.asString
    let credential ← (jserver.getField "credential").bind Json.asString
    let jurls ← (jserver.getField "urls").bind Json.asArray
    jurls.mapM (fun url => do
      let uri ← url.asString
      pure { uri := uri, username := username, password := credential
             : IceServer }))
  pure nested.flatten

/-- `SoraSignaling::CreatePeerFromConfig` (lines 188-209): on successful
parse, `connection_ = manager_->createConnection(rtc_config, this)` — the
manager is modelled as handing out a fresh connection id.  `none` when the
parsing threw (then `connection_` is untouched, as the assignment is the
last statement). -/
def CreatePeerFromConfig (s : ClientState) (jconfig : Json) :
    Option (ClientState × List IceServer) :=
  (parseIceServers jconfig).map (fun servers =>
    ({ s with connection := some s.nextConnId,
              nextConnId := s.nextConnId + 1 }, servers))

/-- The dispatch order of the `if`/`else if` chain on `type` in `OnRead`
(lines 247-292). -/
inductive MsgType where
  | offer
  | update
  | notify
  | ping
  | other
deriving DecidableEq, Repr

/-- String comparison chain on the `type` field, in source order. -/
def msgTypeOf (ty : String) : MsgType :=
  if ty = "offer" then MsgType.offer
  else if ty = "update" then MsgType.update
  else if ty = "notify" then MsgType.notify
  else if ty = "ping" then MsgType.ping
  else MsgType.other

/-- The body of each dispatch branch of `SoraSignaling::OnRead`
(lines 247-295), given the already-extracted `type` string.  Every branch
that returns normally ends with the trailing `DoRead()` of line 294 —
except the not-yet-connected ping branch, which performs its own
`DoRead(); return;` (lines 279-280). -/
def dispatch (s : ClientState) (env : Env) (text : String) (j : Json)
    (ty : String) : Outcome :=
  match msgTypeOf ty with
  | MsgType.offer =>
    match j.getField "config" with
    | none => Outcome.thrown s []
    | some jconfig =>
      match CreatePeerFromConfig s jconfig with
      | none => Outcome.thrown s []
      | some (s1, servers) =>
        match (j.getField "sdp").bind Json.asString with
        | none => Outcome.thrown s1 [Effect.createConn servers]
        | some _sdp =>
          Outcome.normal s1
            [Effect.createConn servers,
             Effect.write (OutMsg.json (Json.obj
               [("type", Json.str "answer"),
                ("sdp", Json.str env.answer_sdp)])),
             Effect.read]
  | MsgType.update =>
    match (j.getField "sdp").bind Json.asString with
    | none => Outcome.thrown s []
    | some _sdp =>
      match s.connection with
      | none => Outcome.nullDeref s []
      | some _ =>
        Outcome.normal s
          [Effect.write (OutMsg.json (Json.obj
             [("type", Json.str "update"),
              ("sdp", Json.str env.answer_sdp)])),
           Effect.read]
  | MsgType.notify =>
    Outcome.normal s
      ((if s.has_notify then [Effect.notify text] else []) ++ [Effect.read])
  | MsgType.ping =>
    if s.rtc_state = IceConnectionState.connected then
      match j.getField "stats" with
      | some v =>
        match v.asBool with
        | none => Outcome.thrown s []
        | some b =>
          if b then
            match s.connection with
            | none => Outcome.nullDeref s []
            | some _ =>
              Outcome.normal s
                [Effect.write (DoSendPongStats env.stats), Effect.read]
          else
            Outcome.normal s [Effect.write DoSendPong, Effect.read]
      | none => Outcome.normal s [Effect.write DoSendPong, Effect.read]
    else
      Outcome.normal s [Effect.read]
  | MsgType.other =>
    Outcome.normal s [Effect.read]

/-- `SoraSignaling::OnRead` (lines 229-295): the operation-aborted check,
the error check with its log, then JSON parse, `type` extraction and
dispatch. -/
def OnRead (s : ClientState) (env : Env) (r : ReadResult) : Outcome :=
  match r with
  | ReadResult.aborted => Outcome.normal s []
  | ReadResult.error => Outcome.normal s [Effect.logError]
  | ReadResult.ok text parsed =>
    match parsed with
    | none => Outcome.thrown s []
    | some j =>
      match (j.getField "type").bind Json.asString with
      | none => Outcome.thrown s []
      | some ty => dispatch s env text j ty

/-- A task posted onto the client's `io_context`. -/
inductive PostedTask where
  | stateChange (st : IceConnectionState)
deriving DecidableEq, Repr

/-- What a WebRTC-thread callback does immediately, on the calling
thread: either post a task to the client context, or act directly. -/
inductive ImmediateAction where
  | post (t : PostedTask)
  | directWrite (m : OutMsg)

/-- Whether the immediate action is only a post (no direct state access or
write on the foreign thread). -/
def ImmediateAction.isPost : ImmediateAction → Bool
  | .post _ => true
  | _ => false

/-- `SoraSignaling::OnIceConnectionStateChange` (lines 299-305):
`boost::asio::post` of `DoIceConnectionStateChange`. -/
def OnIceConnectionStateChange (new_state : IceConnectionState) :
    ImmediateAction :=
  ImmediateAction.post (PostedTask.stateChange new_state)

/-- `SoraSignaling::OnIceCandidate` (lines 306-311): builds the candidate
message and calls `ws_->WriteText` directly on the calling thread. -/
def OnIceCandidate (_sdp_mid : String) (_sdp_mlineindex : Int)
    (sdp : String) : ImmediateAction :=
  ImmediateAction.directWrite (OutMsg.json (Json.obj
    [("type", Json.str "candidate"), ("candidate", Json.str sdp)]))

/-- `SoraSignaling::DoIceConnectionStateChange` (lines 312-329): the
posted task; the switch has no effect, then `rtc_state_ = new_state`. -/
def DoIceConnectionStateChange (s : ClientState)
    (new_state : IceConnectionState) : ClientState :=
  { s with rtc_state := new_state }

/-! ### Concrete fixtures shared by witnesses and counterexamples -/

/-- A concrete configuration for witness evaluations. -/
def cfg0 : SoraSignalingConfig :=
  { signaling_url := "wss://example.com/signaling"
    role := Role.sendrecv
    multistream := true
    channel_id := "ch"
    metadata := Json.null
    video_codec := "VP8"
    video_bitrate := 0
    audio_codec := "OPUS"
    audio_bitrate := 0
    insecure := false
    unity_version := "2021.3" }

/-- A fresh client: no connection yet, control channel not connected. -/
def s0 : ClientState :=
  { rtc_state := IceConnectionState.new
    connected := false
    connection := none
    nextConnId := 0
    ws := none
    has_notify := true
    config := cfg0 }

/-- A client whose ICE state is `connected` and that holds connection 5. -/
def sConn : ClientState :=
  { s0 with rtc_state := IceConnectionState.connected
            connection := some 5
            nextConnId := 6
            connected := true }

/-- Concrete environment for the inlined asynchronous continuations. -/
def env0 : Env := { answer_sdp := "v=0 answer", stats := "[]" }

/-- A well-formed offer message with an empty ICE server list. -/
def offerJson : Json :=
  Json.obj [("type", Json.str "offer"),
            ("config", Json.obj [("iceServers", Json.arr [])]),
            ("sdp", Json.str "v=0")]

/-- A well-formed update message. -/
def updateJson : Json :=
  Json.obj [("type", Json.str "update"), ("sdp", Json.str "v=0")]

/-- A bare ping message (no stats field). -/
def pingJson : Json :=
  Json.obj [("type", Json.str "ping")]

/-- A ping message requesting statistics. -/
def pingStatsJson : Json :=
  Json.obj [("type", Json.str "ping"), ("stats", Json.bool true)]

/-! ### C4: accessor gating -/

/-- C4: the "connected Connection or none" accessor `getRTCConnection`
returns the stored Connection reference exactly when the connectivity
state is `connected`; in every other state (including `completed`, `new`,
`checking`, `disconnected`, `failed`, `closed`) it returns `none`, and a
non-none result can only arise in state `connected`. -/
theorem C4_accessor_gating (s : ClientState) :
    (s.rtc_state = IceConnectionState.connected →
      getRTCConnection s = s.connection) ∧
    (s.rtc_state ≠ IceConnectionState.connected →
      getRTCConnection s = none) ∧
    (getRTCConnection s ≠ none →
      s.rtc_state = IceConnectionState.connected ∧
        getRTCConnection s = s.connection) := by
  refine ⟨fun h => ?_, fun h => ?_, fun h => ?_⟩
  · simp [getRTCConnection, h]
  · simp [getRTCConnection, h]
  · by_cases hc : s.rtc_state = IceConnectionState.connected
    · exact ⟨hc, by simp [getRTCConnection, hc]⟩
    · exact absurd (by simp [getRTCConnection, hc]) h

/-- Witness for C4 at concrete states: in the `connected` state the
accessor hands out the stored connection, in the `completed` state it
withholds it. -/
theorem C4_accessor_gating_witness :
    getRTCConnection sConn = some 5 ∧
    getRTCConnection { sConn with
      rtc_state := IceConnectionState.completed } = none := by
  constructor
  · exact (C4_accessor_gating sConn).1 (by decide)
  · exact (C4_accessor_gating { sConn with
      rtc_state := IceConnectionState.completed }).2.1 (by decide)

/-! ### C8: Release frame effect and idempotence -/

/-- C8: `Release` sets the Connection reference to none, leaves every
other field of the client unchanged, and is idempotent. -/
theorem C8_release_frame (s : ClientState) :
    (Release s).connection = none ∧
    (Release s).rtc_state = s.rtc_state ∧
    (Release s).connected = s.connected ∧
    (Release s).nextConnId = s.nextConnId ∧
    (Release s).ws = s.ws ∧
    (Release s).has_notify = s.has_notify ∧
    (Release s).config = s.config ∧
    Release (Release s) = Release s := by
  refine ⟨rfl, rfl, rfl, rfl, rfl, rfl, rfl, rfl⟩

/-! ### C6: Connect on an already-connected client -/

/-- C6: when the control channel is already connected, `Connect` returns
failure, the state is unchanged (no transport constructed), and no effect
(no connect, no write, no log) is issued — for any URL parser. -/
theorem C6_connect_idempotent (parseURL : String → Option URLParts)
    (s : ClientState) (h : s.connected = true) :
    Connect parseURL s = (false, s, []) := by
  simp [Connect, h]

/-- A URL parser that accepts everything, for the C6 witness. -/
def acceptAllURLs (_url : String) : Option URLParts :=
  some { scheme := "wss", host := "example.com", port := "443" }

/-- Witness for C6: a concrete already-connected client, with a parser
that would happily accept the URL, still gets the no-op failure. -/
theorem C6_connect_idempotent_witness :
    Connect acceptAllURLs sConn = (false, sConn, []) :=
  C6_connect_idempotent acceptAllURLs sConn (by decide)

/-! ### C9: thread marshaling of WebRTC callbacks -/

/-- C9 is refuted by `OnIceCandidate`: the state-change callback does
post a task onto the client context, but the locally-generated-candidate
callback performs a direct `ws_->WriteText` on the calling (foreign)
thread instead of posting, so not every Connection-originated callback is
re-posted before it sends an outbound message. -/
theorem C9_candidate_not_posted :
    (∀ st, (OnIceConnectionStateChange st).isPost = true) ∧
    OnIceCandidate "mid" 0 "cand:1" =
      ImmediateAction.directWrite (OutMsg.json (Json.obj
        [("type", Json.str "candidate"),
         ("candidate", Json.str "cand:1")])) ∧
    (OnIceCandidate "mid" 0 "cand:1").isPost = false := by
  refine ⟨fun st => rfl, rfl, rfl⟩

/-! ### C1: ping / pong keepalive gating -/

/-- C1: for an inbound ping — (1) when the connectivity state is not
`connected` the handler only re-issues the next read and produces no
outbound message; (2) when the state is `connected`, the payload has
`stats = true` and a Connection is held, the handler issues exactly one
outbound frame, the stats pong embedding the statistics payload, then one
read; (3) when the state is `connected` and the stats field is absent or
false, the handler issues exactly one outbound frame, the bare pong
(which carries no stats field), then one read. -/
theorem C1_ping_gating :
    (∀ (s : ClientState) (env : Env) (t : String) (j : Json),
      (j.getField "type").bind Json.asString = some "ping" →
      s.rtc_state ≠ IceConnectionState.connected →
      OnRead s env (ReadResult.ok t (some j)) =
        Outcome.normal s [Effect.read]) ∧
    (∀ (s : ClientState) (env : Env) (t : String) (j : Json) (c : Nat),
      (j.getField "type").bind Json.asString = some "ping" →
      s.rtc_state = IceConnectionState.connected →
      j.getField "stats" = some (Json.bool true) →
      s.connection = some c →
      OnRead s env (ReadResult.ok t (some j)) =
        Outcome.normal s
          [Effect.write (DoSendPongStats env.stats), Effect.read]) ∧
    (∀ (s : ClientState) (env : Env) (t : String) (j : Json),
      (j.getField "type").bind Json.asString = some "ping" →
      s.rtc_state = IceConnectionState.connected →
      (j.getField "stats" = none ∨
        j.getField "stats" = some (Json.bool false)) →
      OnRead s env (ReadResult.ok t (some j)) =
        Outcome.normal s [Effect.write DoSendPong, Effect.read]) ∧
    (DoSendPong = OutMsg.json (Json.obj [("type", Json.str "pong")]) ∧
      Json.hasField (Json.obj [("type", Json.str "pong")]) "stats" = false) := by
  refine ⟨?_, ?_, ?_, rfl, by decide⟩
  · intro s env t j hty hst
    simp [OnRead, hty, dispatch, msgTypeOf, hst]
  · intro s env t j c hty hst hstats hconn
    simp [OnRead, hty, dispatch, msgTypeOf, hst, hstats, hconn, Json.asBool]
  · intro s env t j hty hst hstats
    rcases hstats with hstats | hstats <;>
      simp [OnRead, hty, dispatch, msgTypeOf, hst, hstats, Json.asBool]

/-- Witness for C1 at concrete inputs: a stats ping before `connected`
is a pure re-read; the same ping while `connected` yields the stats pong;
a bare ping while `connected` yields the bare pong. -/
theorem C1_ping_gating_witness :
    OnRead s0 env0 (ReadResult.ok "png" (some pingStatsJson)) =
      Outcome.normal s0 [Effect.read] ∧
    OnRead sConn env0 (ReadResult.ok "png" (some pingStatsJson)) =
      Outcome.normal sConn
        [Effect.write (DoSendPongStats env0.stats), Effect.read] ∧
    OnRead sConn env0 (ReadResult.ok "png" (some pingJson)) =
      Outcome.normal sConn [Effect.write DoSendPong, Effect.read] :=
  ⟨C1_ping_gating.1 s0 env0 "png" pingStatsJson rfl (by decide),
   C1_ping_gating.2.1 sConn env0 "png" pingStatsJson 5 rfl rfl rfl rfl,
   C1_ping_gating.2.2.1 sConn env0 "png" pingJson rfl rfl (Or.inl rfl)⟩

/-! ### C10: update handling dereferences the Connection unconditionally -/

/-- C10: the update branch extracts the SDP and then calls
`connection_->SetOffer` with no null check: when no Connection exists the
null dereference is reached; when one exists the handling is well-defined
and replies with an update message followed by one read. -/
theorem C10_update_requires_connection :
    (∀ (s : ClientState) (env : Env) (t : String) (j : Json) (sdp : String),
      (j.getField "type").bind Json.asString = some "update" →
      (j.getField "sdp").bind Json.asString = some sdp →
      s.connection = none →
      OnRead s env (ReadResult.ok t (some j)) = Outcome.nullDeref s []) ∧
    (∀ (s : ClientState) (env : Env) (t : String) (j : Json) (sdp : String)
        (c : Nat),
      (j.getField "type").bind Json.asString = some "update" →
      (j.getField "sdp").bind Json.asString = some sdp →
      s.connection = some c →
      OnRead s env (ReadResult.ok t (some j)) =
        Outcome.normal s
          [Effect.write (OutMsg.json (Json.obj
             [("type", Json.str "update"),
              ("sdp", Json.str env.answer_sdp)])),
           Effect.read]) := by
  constructor
  · intro s env t j sdp hty hsdp hconn
    simp [OnRead, hty, dispatch, msgTypeOf, hsdp, hconn]
  · intro s env t j sdp c hty hsdp hconn
    simp [OnRead, hty, dispatch, msgTypeOf, hsdp, hconn]

/-- Witness for C10: an update received by a client with no Connection
reaches the null dereference; the same update on a client holding
connection 5 is handled normally. -/
theorem C10_update_requires_connection_witness :
    OnRead s0 env0 (ReadResult.ok "u" (some updateJson)) =
      Outcome.nullDeref s0 [] ∧
    OnRead sConn env0 (ReadResult.ok "u" (some updateJson)) =
      Outcome.normal sConn
        [Effect.write (OutMsg.json (Json.obj
           [("type", Json.str "update"),
            ("sdp", Json.str env0.answer_sdp)])),
         Effect.read] :=
  ⟨C10_update_requires_connection.1 s0 env0 "u" updateJson "v=0" rfl rfl rfl,
   C10_update_requires_connection.2 sConn env0 "u" updateJson "v=0" 5
     rfl rfl rfl⟩

/-! ### C2: Connection lifecycle across offers and updates -/

/-- Counterexample to C2: processing a second offer while a Connection
already exists does construct a new Connection — starting from the fresh
client, the first offer installs connection 0, and a second identical
offer replaces it with the fresh connection 1 (and the trace of the
second offer contains a connection construction). -/
theorem C2_second_offer_replaces :
    (OnRead s0 env0 (ReadResult.ok "o" (some offerJson))).endState.connection
      = some 0 ∧
    (OnRead (OnRead s0 env0
        (ReadResult.ok "o" (some offerJson))).endState env0
        (ReadResult.ok "o" (some offerJson))).endState.connection = some 1 ∧
    ((OnRead (OnRead s0 env0
        (ReadResult.ok "o" (some offerJson))).endState env0
        (ReadResult.ok "o" (some offerJson))).effects.any Effect.isCreateConn)
      = true ∧
    some 1 ≠ (some 0 : Option Nat) := by
  refine ⟨rfl, rfl, rfl, by decide⟩

/-- C2 as amended: every offer message (not only the first) constructs a
fresh Connection, replacing any existing one, while an update message
constructs no Connection and reuses the existing reference, leaving the
whole state unchanged. -/
theorem C2_offer_creates_update_reuses :
    (∀ (s : ClientState) (env : Env) (t : String) (j jconfig : Json)
        (servers : List IceServer),
      (j.getField "type").bind Json.asString = some "offer" →
      j.getField "config" = some jconfig →
      parseIceServers jconfig = some servers →
      (OnRead s env (ReadResult.ok t (some j))).endState.connection
          = some s.nextConnId ∧
      (OnRead s env (ReadResult.ok t (some j))).endState.nextConnId
          = s.nextConnId + 1) ∧
    (∀ (s : ClientState) (env : Env) (t : String) (j : Json) (sdp : String)
        (c : Nat),
      (j.getField "type").bind Json.asString = some "update" →
      (j.getField "sdp").bind Json.asString = some sdp →
      s.connection = some c →
      (OnRead s env (ReadResult.ok t (some j))).endState = s ∧
      ((OnRead s env (ReadResult.ok t (some j))).effects.any
        Effect.isCreateConn) = false) := by
  constructor
  · intro s env t j jconfig servers hty hcfg hsrv
    rcases hsdp : (j.getField "sdp").bind Json.asString with _ | sdp <;>
      simp [OnRead, hty, dispatch, msgTypeOf, hcfg, CreatePeerFromConfig,
        hsrv, hsdp, Outcome.endState]
  · intro s env t j sdp c hty hsdp hconn
    simp [OnRead, hty, dispatch, msgTypeOf, hsdp, hconn, Outcome.endState,
      Outcome.effects, Effect.isCreateConn]

/-- Witness for the amended C2: the concrete offer installs the fresh
connection id of the connected client, and the concrete update leaves the
connected client untouched. -/
theorem C2_offer_creates_update_reuses_witness :
    (OnRead sConn env0
      (ReadResult.ok "o" (some offerJson))).endState.connection = some 6 ∧
    (OnRead sConn env0
      (ReadResult.ok "u" (some updateJson))).endState = sConn :=
  ⟨(C2_offer_creates_update_reuses.1 sConn env0 "o" offerJson
      (Json.obj [("iceServers", Json.arr [])]) [] rfl rfl rfl).1,
   (C2_offer_creates_update_reuses.2 sConn env0 "u" updateJson "v=0" 5
      rfl rfl rfl).1⟩

/-! ### C3: malformed inbound JSON -/

/-- An offer message whose `sdp` field is missing (but whose `config`
parses). -/
def offerNoSdpJson : Json :=
  Json.obj [("type", Json.str "offer"),
            ("config", Json.obj [("iceServers", Json.arr [])])]

/-- C3 fails on the code: a text frame that is not well-formed JSON makes
`boost::json::parse` throw, the exception escapes `OnRead`, and no next
read is issued — the read loop does not continue (the session is dead,
not just this message).  Moreover a message missing an expected field can
corrupt state before throwing: an offer with a valid `config` but no
`sdp` replaces `connection_` (here: from none to connection 0) and then
throws, again without re-issuing a read. -/
theorem C3_malformed_json_kills_loop :
    OnRead s0 env0 (ReadResult.ok "\x7b" none) = Outcome.thrown s0 [] ∧
    countReads (OnRead s0 env0 (ReadResult.ok "\x7b" none)).effects = 0 ∧
    s0.connection = none ∧
    (OnRead s0 env0
      (ReadResult.ok "x" (some offerNoSdpJson))).endState.connection
        = some 0 ∧
    countReads (OnRead s0 env0
      (ReadResult.ok "x" (some offerNoSdpJson))).effects = 0 ∧
    (OnRead s0 env0
      (ReadResult.ok "x" (some offerNoSdpJson))).isNormal = false := by
  refine ⟨rfl, rfl, rfl, rfl, rfl, rfl⟩

/-! ### C5: read-loop discipline -/

/-- Invariant checked on a handler outcome: a normal return issued
exactly one read. -/
def readCountOk : Outcome → Bool
  | Outcome.normal _ effs => countReads effs == 1
  | _ => true

/-- Every dispatch branch that returns normally issues exactly one
`DoRead`. -/
theorem dispatch_read_count (s : ClientState) (env : Env) (t : String)
    (j : Json) (ty : String) : readCountOk (dispatch s env t j ty) = true := by
  unfold dispatch
  repeat' split
  all_goals
    simp [readCountOk, countReads, Effect.isRead, List.filter_append]

/-- C5: the aborted-read branch terminates the loop with no log and no
re-issued read; any other read error logs and terminates the loop; and
whenever the handler returns normally it has issued exactly one next read
(one, never two; the early-returning not-yet-connected ping branch
included).  However, the claim's "never zero on a successfully completed
read" fails: the concrete well-typed offer message missing its fields
makes the handler throw with zero reads issued, terminating the loop. -/
theorem C5_read_loop_discipline :
    (∀ (s : ClientState) (env : Env),
      OnRead s env ReadResult.aborted = Outcome.normal s []) ∧
    (∀ (s : ClientState) (env : Env),
      OnRead s env ReadResult.error = Outcome.normal s [Effect.logError]) ∧
    (∀ (s : ClientState) (env : Env) (t : String) (oj : Option Json),
      readCountOk (OnRead s env (ReadResult.ok t oj)) = true) ∧
    (OnRead s0 env0
      (ReadResult.ok "x" (some (Json.obj [("type", Json.str "offer")])))
        = Outcome.thrown s0 [] ∧
    countReads (OnRead s0 env0
      (ReadResult.ok "x" (some (Json.obj [("type", Json.str "offer")])))).effects
        = 0) := by
  refine ⟨fun s env => rfl, fun s env => rfl, ?_, rfl, rfl⟩
  intro s env t oj
  cases oj with
  | none => rfl
  | some j =>
    show readCountOk (OnRead s env (ReadResult.ok t (some j))) = true
    rcases hty : (j.getField "type").bind Json.asString with _ | ty
    · simp [OnRead, hty, readCountOk]
    · simpa [OnRead, hty] using dispatch_read_count s env t j ty

/-! ### C7: shape of the outbound connect message -/

/-- C7: for every configuration the connect message carries the type,
role, multistream, channel_id, sora_client, libwebrtc and environment
fields; the metadata field is present exactly when the configured
metadata is non-null; the video and audio blocks are present with a
codec_type field, and each block carries bit_rate exactly when the
corresponding configured bitrate is non-zero. -/
theorem C7_connect_message_fields (cfg : SoraSignalingConfig) :
    (DoSendConnect cfg).hasField "type" = true ∧
    (DoSendConnect cfg).hasField "role" = true ∧
    (DoSendConnect cfg).hasField "multistream" = true ∧
    (DoSendConnect cfg).hasField "channel_id" = true ∧
    (DoSendConnect cfg).hasField "sora_client" = true ∧
    (DoSendConnect cfg).hasField "libwebrtc" = true ∧
    (DoSendConnect cfg).hasField "environment" = true ∧
    ((DoSendConnect cfg).hasField "metadata" = true ↔
      cfg.metadata.isNull = false) ∧
    (∃ v, (DoSendConnect cfg).getField "video" = some v ∧
      v.hasField "codec_type" = true ∧
      (v.hasField "bit_rate" = true ↔ cfg.video_bitrate ≠ 0)) ∧
    (∃ a, (DoSendConnect cfg).getField "audio" = some a ∧
      a.hasField "codec_type" = true ∧
      (a.hasField "bit_rate" = true ↔ cfg.audio_bitrate ≠ 0)) := by
  by_cases hm : cfg.metadata.isNull = true <;>
    by_cases hv : cfg.video_bitrate = 0 <;>
    by_cases ha : cfg.audio_bitrate = 0 <;>
    simp [DoSendConnect, Json.hasField, Json.getField, hm, hv, ha]
